import Mathlib

/-!
The Linux runner shell of GitManager (`linux/runner/my_application.cc`).

A shallow embedding of the three `GApplication` virtual methods that
`my_application.cc` overrides, together with the class initialiser that wires
them up.

Conventions of the embedding.

* Every call into GLib / GTK / the Flutter embedder / `bitsdojo_window` is
  recorded, in program order, as a `Call` appended to the `trace` of the shell
  state.  Constructors return a fresh object handle taken from `nextHandle`.
* The casts `GTK_WINDOW`, `GTK_WIDGET`, `GTK_CONTAINER`, `FL_PLUGIN_REGISTRY`,
  `GTK_APPLICATION`, `G_APPLICATION_CLASS` and `MY_APPLICATION` do not change
  the object they are applied to, so a handle stands for the object under
  every one of its types.
* Memory management (`g_strdupv` as an allocation, the `g_autoptr` clean-ups
  at scope exit) is not part of the trace.
* A `gchar**` is the list of pointer cells starting at the address it points
  to; `none` is a `NULL` cell.  Reading outside the cells is undefined and is
  reported as `none` by the function that would do it.
-/

namespace MyApplication

/-- Object identity of a toolkit object (window, widget, project, view). -/
abbrev Handle := Nat

/-- The pointer cells reachable from a `gchar**`: `some s` is a pointer to the
string `s`, `none` is `NULL`. -/
abbrev Strv := List (Option String)

/-- The `NULL`-terminated vector the toolkit passes for the raw process
arguments `V`. -/
def argv (V : List String) : Strv :=
  V.map some ++ [none]

/-- Result of `g_strdupv`: the strings up to the first `NULL` cell, copied in
order.  Running off the end of the cells before a `NULL` is met is an
out-of-bounds read (`none`). -/
def g_strdupv : Strv → Option (List String)
  | [] => none
  | none :: _ => some []
  | some s :: rest => (g_strdupv rest).map (fun copied => s :: copied)

/-- The calls this file makes into its collaborators. -/
inductive Call where
  | g_application_register
  | g_warning (text : String)
  | g_application_activate
  | parent_class_startup
  | parent_class_activate
  | parent_class_local_command_line
  | gtk_application_window_new (ret : Handle)
  | gtk_header_bar_new (ret : Handle)
  | gtk_window_set_titlebar (window titlebar : Handle)
  | fl_dart_project_new (ret : Handle)
  | fl_dart_project_set_dart_entrypoint_arguments (project : Handle)
      (argv : Option (List String))
  | fl_view_new (project : Handle) (ret : Handle)
  | gtk_widget_show (widget : Handle)
  | gtk_container_add (container widget : Handle)
  | fl_register_plugins (registry : Handle)
  | gtk_widget_grab_focus (widget : Handle)
  | bitsdojo_window_plugin_set_window (window : Handle)
  deriving DecidableEq

/-- The instance `struct _MyApplication` together with the part of the outside
world the handlers act on.  `dart_entrypoint_arguments` is the `char**` field
(`none` is `NULL`). -/
structure Shell where
  dart_entrypoint_arguments : Option (List String)
  nextHandle : Handle
  trace : List Call
  deriving DecidableEq

/-- Record one collaborator call. -/
def Shell.call (s : Shell) (c : Call) : Shell :=
  { s with trace := s.trace ++ [c] }

/-- Record a constructor call; the constructed object gets a fresh handle. -/
def Shell.construct (s : Shell) (mk : Handle → Call) : Handle × Shell :=
  (s.nextHandle,
    { s with nextHandle := s.nextHandle + 1, trace := s.trace ++ [mk s.nextHandle] })

/-- The function `my_application_init` has an empty body; the instance memory
is zero-filled by `g_object_new`, so the argument pointer starts as `NULL`. -/
def my_application_init : Shell :=
  { dart_entrypoint_arguments := none, nextHandle := 0, trace := [] }

/-- Implements `GApplication::activate`. -/
def my_application_activate (self : Shell) : Shell :=
  let (window, s) := self.construct Call.gtk_application_window_new
  let (titlebar, s) := s.construct Call.gtk_header_bar_new
  let s := s.call (Call.gtk_window_set_titlebar window titlebar)
  let (project, s) := s.construct Call.fl_dart_project_new
  let s := s.call
    (Call.fl_dart_project_set_dart_entrypoint_arguments project s.dart_entrypoint_arguments)
  let (view, s) := s.construct (Call.fl_view_new project)
  let s := s.call (Call.gtk_widget_show view)
  let s := s.call (Call.gtk_container_add window view)
  let s := s.call (Call.fl_register_plugins view)
  let s := s.call (Call.gtk_widget_grab_focus view)
  let s := s.call (Call.bitsdojo_window_plugin_set_window window)
  s.call (Call.gtk_widget_show window)

/-- Implements `GApplication::startup`: only chains up to the parent class. -/
def my_application_startup (self : Shell) : Shell :=
  self.call Call.parent_class_startup

/-- Which implementation a virtual-method slot of the class points to. -/
inductive Impl where
  | parent_class
  | my_application
  deriving DecidableEq

/-- The three `GApplicationClass` slots this file assigns. -/
structure GApplicationClass where
  activate : Impl
  local_command_line : Impl
  startup : Impl
  deriving DecidableEq

/-- The class as inherited from `GTK_TYPE_APPLICATION`, before
`my_application_class_init` runs. -/
def parent_class : GApplicationClass :=
  { activate := Impl.parent_class
    local_command_line := Impl.parent_class
    startup := Impl.parent_class }

/-- The class initialiser: all three slots are pointed at this file's handlers. -/
def my_application_class_init (klass : GApplicationClass) : GApplicationClass :=
  { klass with
    activate := Impl.my_application
    local_command_line := Impl.my_application
    startup := Impl.my_application }

/-- The class of `MyApplication` objects. -/
def my_application_class : GApplicationClass :=
  my_application_class_init parent_class

/-- Emission of the `activate` signal on this process's application object:
runs whatever the class's `activate` slot points to. -/
def emit_activate (klass : GApplicationClass) (s : Shell) : Shell :=
  match klass.activate with
  | Impl.my_application => my_application_activate s
  | Impl.parent_class => s.call Call.parent_class_activate

/-- Emission of the `startup` signal. -/
def emit_startup (klass : GApplicationClass) (s : Shell) : Shell :=
  match klass.startup with
  | Impl.my_application => my_application_startup s
  | Impl.parent_class => s.call Call.parent_class_startup

/-- What `g_application_register (application, nullptr, &error)` reports:
`TRUE` (the process is then either the primary instance or a remote one), or
`FALSE` with `error->message` set. -/
inductive RegisterResult where
  | registered (is_remote : Bool)
  | failed (message : String)
  deriving DecidableEq

/-- The toolkit function `g_application_activate`: in the primary instance the
`activate` signal is emitted at once; a remote instance forwards the request
to the primary one and runs no handler in this process. -/
def g_application_activate (klass : GApplicationClass) (is_remote : Bool)
    (s : Shell) : Shell :=
  let s := s.call Call.g_application_activate
  if is_remote then s else emit_activate klass s

/-- What `my_application_local_command_line` leaves behind: the shell, the
returned `gboolean`, and the values stored through `exit_status`, in order. -/
structure LocalCommandLineResult where
  shell : Shell
  returned : Bool
  exit_status_writes : List Int
  deriving DecidableEq

/-- Implements `GApplication::local_command_line`.  `arguments` are the cells
at `*arguments`; `reg` is what the registration call will report. -/
def my_application_local_command_line (klass : GApplicationClass) (self : Shell)
    (arguments : Strv) (reg : RegisterResult) : Option LocalCommandLineResult :=
  -- Strip out the first argument as it is the binary name.
  match g_strdupv (arguments.drop 1) with
  | none => none
  | some copied =>
    let s := { self with dart_entrypoint_arguments := some copied }
    let s := s.call Call.g_application_register
    match reg with
    | RegisterResult.failed message =>
      let s := s.call (Call.g_warning ("Failed to register application: " ++ message))
      some { shell := s, returned := true, exit_status_writes := [1] }
    | RegisterResult.registered is_remote =>
      let s := g_application_activate klass is_remote s
      some { shell := s, returned := true, exit_status_writes := [0] }

/-- A lifecycle event the toolkit's main loop delivers to the shell.  A raw
argument vector always carries the binary path as its first element. -/
inductive Event where
  | command_line (binary : String) (rest : List String) (reg : RegisterResult)
  | startup
  | activate
  deriving DecidableEq

/-- Deliver one event through the class's virtual-method table. -/
def deliver (klass : GApplicationClass) (s : Shell) : Event → Option Shell
  | Event.command_line binary rest reg =>
    match klass.local_command_line with
    | Impl.my_application =>
      (my_application_local_command_line klass s (argv (binary :: rest)) reg).map
        (fun r => r.shell)
    | Impl.parent_class => some (s.call Call.parent_class_local_command_line)
  | Event.startup => some (emit_startup klass s)
  | Event.activate => some (emit_activate klass s)

/-- Deliver a sequence of events, each handler running to completion before
the next event. -/
def run (klass : GApplicationClass) (s : Shell) : List Event → Option Shell
  | [] => some s
  | e :: es =>
    match deliver klass s e with
    | none => none
    | some s1 => run klass s1 es

/-- The calls made between state `s` and a later state `s1`. -/
def callsSince (s s1 : Shell) : List Call :=
  s1.trace.drop s.trace.length

/-- Recogniser of window constructions. -/
def Call.isWindowNew : Call → Bool
  | Call.gtk_application_window_new _ => true
  | _ => false

/-- Recogniser of view constructions. -/
def Call.isViewNew : Call → Bool
  | Call.fl_view_new _ _ => true
  | _ => false

/-- Recogniser of plugin registrations. -/
def Call.isRegisterPlugins : Call → Bool
  | Call.fl_register_plugins _ => true
  | _ => false

/-- Recogniser of hand-overs of a window to the chrome delegate. -/
def Call.isSetWindow : Call → Bool
  | Call.bitsdojo_window_plugin_set_window _ => true
  | _ => false

/-- Recogniser of title-bar installations. -/
def Call.isSetTitlebar : Call → Bool
  | Call.gtk_window_set_titlebar _ _ => true
  | _ => false

/-- Recogniser of emitted warnings. -/
def Call.isWarning : Call → Bool
  | Call.g_warning _ => true
  | _ => false

/-- Recogniser of the calls only the activation handler makes: everything from
window construction to showing the window. -/
def Call.isActivationWork : Call → Bool
  | Call.gtk_application_window_new _ => true
  | Call.gtk_header_bar_new _ => true
  | Call.gtk_window_set_titlebar _ _ => true
  | Call.fl_dart_project_new _ => true
  | Call.fl_dart_project_set_dart_entrypoint_arguments _ _ => true
  | Call.fl_view_new _ _ => true
  | Call.gtk_widget_show _ => true
  | Call.gtk_container_add _ _ => true
  | Call.fl_register_plugins _ => true
  | Call.gtk_widget_grab_focus _ => true
  | Call.bitsdojo_window_plugin_set_window _ => true
  | _ => false

/-- Both calls occur in `l`, and every occurrence of `a` has a smaller index
than every occurrence of `b`. -/
def StrictlyBefore (a b : Call) (l : List Call) : Prop :=
  a ∈ l ∧ b ∈ l ∧
    ∀ i < l.length, ∀ j < l.length, l[i]? = some a → l[j]? = some b → i < j

instance (a b : Call) (l : List Call) : Decidable (StrictlyBefore a b l) := by
  unfold StrictlyBefore
  infer_instance

/-- The text `m` occurs as a contiguous part of `text`. -/
def containsText (text m : String) : Prop :=
  m.data <:+: text.data

/-- Number of windows constructed so far. -/
def windowsCreated (s : Shell) : Nat :=
  s.trace.countP Call.isWindowNew

/-- The argument vectors the engine's views were constructed with, one per
`fl_view_new`, in order.  The engine keeps for each project object the vector
last stored in it by `fl_dart_project_set_dart_entrypoint_arguments` (`NULL`
for a new project), and `fl_view_new` builds the view from its project. -/
def viewArgumentsFrom (projects : Handle → Option (List String)) :
    List Call → List (Option (List String))
  | [] => []
  | Call.fl_dart_project_new p :: rest =>
    viewArgumentsFrom (fun q => if q = p then none else projects q) rest
  | Call.fl_dart_project_set_dart_entrypoint_arguments p a :: rest =>
    viewArgumentsFrom (fun q => if q = p then a else projects q) rest
  | Call.fl_view_new p _ :: rest => projects p :: viewArgumentsFrom projects rest
  | _ :: rest => viewArgumentsFrom projects rest

/-- The argument vectors of the views constructed by the calls `l`, starting
with no project known to the engine. -/
def viewArguments (l : List Call) : List (Option (List String)) :=
  viewArgumentsFrom (fun _ => none) l

/-- The activation sequence in the order the specification lists it:
window; title bar constructed and installed; view constructed from the entry
point arguments; view shown; view attached; plugins registered; window handed
to the chrome delegate; focus on the view; window shown. -/
def spec_activation_sequence (window titlebar project view : Handle)
    (entrypointArguments : Option (List String)) : List Call :=
  [ Call.gtk_application_window_new window,
    Call.gtk_header_bar_new titlebar,
    Call.gtk_window_set_titlebar window titlebar,
    Call.fl_dart_project_new project,
    Call.fl_dart_project_set_dart_entrypoint_arguments project entrypointArguments,
    Call.fl_view_new project view,
    Call.gtk_widget_show view,
    Call.gtk_container_add window view,
    Call.fl_register_plugins view,
    Call.bitsdojo_window_plugin_set_window window,
    Call.gtk_widget_grab_focus view,
    Call.gtk_widget_show window ]

/-- How many times the events run the activation handler of the primary
instance: once per activation request, and once per command-line receipt whose
registration succeeds with this process as the primary instance. -/
def activationRuns : List Event → Nat
  | [] => 0
  | Event.activate :: es => activationRuns es + 1
  | Event.command_line _ _ (RegisterResult.registered false) :: es => activationRuns es + 1
  | _ :: es => activationRuns es

/-! Auxiliary facts about the embedding. -/

theorem g_strdupv_argv (V : List String) : g_strdupv (argv V) = some V := by
  induction V with
  | nil => rfl
  | cons v rest ih =>
    have h : argv (v :: rest) = some v :: argv rest := rfl
    rw [h, g_strdupv, ih]
    rfl

theorem callsSince_append (s s1 : Shell) (l : List Call)
    (h : s1.trace = s.trace ++ l) : callsSince s s1 = l := by
  simp [callsSince, h]

theorem activate_state (s : Shell) :
    my_application_activate s =
      { dart_entrypoint_arguments := s.dart_entrypoint_arguments
        nextHandle := s.nextHandle + 4
        trace := s.trace ++
          [ Call.gtk_application_window_new s.nextHandle,
            Call.gtk_header_bar_new (s.nextHandle + 1),
            Call.gtk_window_set_titlebar s.nextHandle (s.nextHandle + 1),
            Call.fl_dart_project_new (s.nextHandle + 2),
            Call.fl_dart_project_set_dart_entrypoint_arguments (s.nextHandle + 2)
              s.dart_entrypoint_arguments,
            Call.fl_view_new (s.nextHandle + 2) (s.nextHandle + 3),
            Call.gtk_widget_show (s.nextHandle + 3),
            Call.gtk_container_add s.nextHandle (s.nextHandle + 3),
            Call.fl_register_plugins (s.nextHandle + 3),
            Call.gtk_widget_grab_focus (s.nextHandle + 3),
            Call.bitsdojo_window_plugin_set_window s.nextHandle,
            Call.gtk_widget_show s.nextHandle ] } := by
  simp [my_application_activate, Shell.call, Shell.construct, List.append_assoc]

theorem strictlyBefore_of_split (a b : Call) (l l1 l2 : List Call)
    (hl : l = l1 ++ l2) (ha1 : a ∈ l1) (hb2 : b ∈ l2) (ha2 : a ∉ l2) (hb1 : b ∉ l1) :
    StrictlyBefore a b l := by
  subst hl
  refine ⟨List.mem_append_left _ ha1, List.mem_append_right _ hb2, ?_⟩
  intro i _ j _ hi hj
  by_contra hlt
  push_neg at hlt
  by_cases hi1 : i < l1.length
  · have hj1 : j < l1.length := lt_of_le_of_lt hlt hi1
    rw [List.getElem?_append_left hj1] at hj
    exact hb1 (List.getElem?_mem hj)
  · push_neg at hi1
    rw [List.getElem?_append_right hi1] at hi
    exact ha2 (List.getElem?_mem hi)

theorem g_strdupv_tail_argv (binary : String) (rest : List String) :
    g_strdupv (List.tail (argv (binary :: rest))) = some rest :=
  g_strdupv_argv rest

theorem local_command_line_failed (klass : GApplicationClass) (s : Shell)
    (binary : String) (rest : List String) (m : String) :
    my_application_local_command_line klass s (argv (binary :: rest))
        (RegisterResult.failed m) =
      some
        { shell :=
            { dart_entrypoint_arguments := some rest
              nextHandle := s.nextHandle
              trace := s.trace ++
                [ Call.g_application_register,
                  Call.g_warning ("Failed to register application: " ++ m) ] }
          returned := true
          exit_status_writes := [1] } := by
  simp [my_application_local_command_line, g_strdupv_tail_argv, Shell.call,
    List.append_assoc]

theorem local_command_line_remote (klass : GApplicationClass) (s : Shell)
    (binary : String) (rest : List String) :
    my_application_local_command_line klass s (argv (binary :: rest))
        (RegisterResult.registered true) =
      some
        { shell :=
            { dart_entrypoint_arguments := some rest
              nextHandle := s.nextHandle
              trace := s.trace ++
                [ Call.g_application_register, Call.g_application_activate ] }
          returned := true
          exit_status_writes := [0] } := by
  simp [my_application_local_command_line, g_strdupv_tail_argv, Shell.call,
    g_application_activate, List.append_assoc]

theorem local_command_line_primary (s : Shell) (binary : String) (rest : List String) :
    my_application_local_command_line my_application_class s (argv (binary :: rest))
        (RegisterResult.registered false) =
      some
        { shell :=
            { dart_entrypoint_arguments := some rest
              nextHandle := s.nextHandle + 4
              trace := s.trace ++
                [ Call.g_application_register,
                  Call.g_application_activate,
                  Call.gtk_application_window_new s.nextHandle,
                  Call.gtk_header_bar_new (s.nextHandle + 1),
                  Call.gtk_window_set_titlebar s.nextHandle (s.nextHandle + 1),
                  Call.fl_dart_project_new (s.nextHandle + 2),
                  Call.fl_dart_project_set_dart_entrypoint_arguments (s.nextHandle + 2)
                    (some rest),
                  Call.fl_view_new (s.nextHandle + 2) (s.nextHandle + 3),
                  Call.gtk_widget_show (s.nextHandle + 3),
                  Call.gtk_container_add s.nextHandle (s.nextHandle + 3),
                  Call.fl_register_plugins (s.nextHandle + 3),
                  Call.gtk_widget_grab_focus (s.nextHandle + 3),
                  Call.bitsdojo_window_plugin_set_window s.nextHandle,
                  Call.gtk_widget_show s.nextHandle ] }
          returned := true
          exit_status_writes := [0] } := by
  simp [my_application_local_command_line, g_strdupv_tail_argv, Shell.call,
    g_application_activate, emit_activate, my_application_class, my_application_class_init,
    activate_state, List.append_assoc]

theorem activate_calls (s : Shell) :
    callsSince s (my_application_activate s) =
      [ Call.gtk_application_window_new s.nextHandle,
        Call.gtk_header_bar_new (s.nextHandle + 1),
        Call.gtk_window_set_titlebar s.nextHandle (s.nextHandle + 1),
        Call.fl_dart_project_new (s.nextHandle + 2),
        Call.fl_dart_project_set_dart_entrypoint_arguments (s.nextHandle + 2)
          s.dart_entrypoint_arguments,
        Call.fl_view_new (s.nextHandle + 2) (s.nextHandle + 3),
        Call.gtk_widget_show (s.nextHandle + 3),
        Call.gtk_container_add s.nextHandle (s.nextHandle + 3),
        Call.fl_register_plugins (s.nextHandle + 3),
        Call.gtk_widget_grab_focus (s.nextHandle + 3),
        Call.bitsdojo_window_plugin_set_window s.nextHandle,
        Call.gtk_widget_show s.nextHandle ] :=
  callsSince_append s _ _ (by rw [activate_state])

/-! The claims. -/

/-- C1: for every raw argument vector `V` with at least one element, the
command-line handler returns and stores as `dart_entrypoint_arguments`
exactly `V` from index 1 onward: element `i` of the stored vector is element
`i + 1` of `V`, its length is `|V| - 1`, and it is empty when `|V| = 1`. -/
theorem local_command_line_stores_tail (klass : GApplicationClass) (s : Shell)
    (V : List String) (reg : RegisterResult) (hV : 1 ≤ V.length) :
    ∃ res stored,
      my_application_local_command_line klass s (argv V) reg = some res ∧
      res.shell.dart_entrypoint_arguments = some stored ∧
      stored = V.drop 1 ∧
      stored.length = V.length - 1 ∧
      (∀ i, stored[i]? = V[i + 1]?) ∧
      (V.length = 1 → stored = []) := by
  obtain ⟨binary, rest, rfl⟩ : ∃ binary rest, V = binary :: rest := by
    cases V with
    | nil => simp at hV
    | cons b r => exact ⟨b, r, rfl⟩
  have hstored : ∀ res : LocalCommandLineResult,
      my_application_local_command_line klass s (argv (binary :: rest)) reg = some res →
      res.shell.dart_entrypoint_arguments = some rest := by
    intro res hres
    cases reg with
    | failed m =>
      rw [local_command_line_failed] at hres
      cases hres
      rfl
    | registered is_remote =>
      cases is_remote with
      | true =>
        rw [local_command_line_remote] at hres
        cases hres
        rfl
      | false =>
        simp only [my_application_local_command_line, List.drop_one, g_strdupv_tail_argv,
          g_application_activate, emit_activate] at hres
        cases hk : klass.activate <;> simp [hk, Shell.call, activate_state] at hres <;>
          subst hres <;> rfl
  have hsome : ∃ res,
      my_application_local_command_line klass s (argv (binary :: rest)) reg = some res := by
    cases reg <;>
      simp [my_application_local_command_line, g_strdupv_tail_argv]
  obtain ⟨res, hres⟩ := hsome
  refine ⟨res, rest, hres, hstored res hres, rfl, by simp, ?_, ?_⟩
  · intro i
    simp
  · intro h1
    simpa using h1

/-- Witness for C1 (scenario A): the raw vector `["app_bin"]`. -/
theorem local_command_line_stores_tail_witness :
    1 ≤ ["app_bin"].length ∧
    ∃ res stored,
      my_application_local_command_line my_application_class my_application_init
        (argv ["app_bin"]) (RegisterResult.registered false) = some res ∧
      res.shell.dart_entrypoint_arguments = some stored ∧
      stored = ["app_bin"].drop 1 ∧
      stored.length = ["app_bin"].length - 1 ∧
      (∀ i, stored[i]? = ["app_bin"][i + 1]?) ∧
      (["app_bin"].length = 1 → stored = []) :=
  ⟨by decide,
    local_command_line_stores_tail my_application_class my_application_init ["app_bin"]
      (RegisterResult.registered false) (by decide)⟩

/-- C2: whenever registration succeeds, for every raw argument vector (binary
path plus any further arguments) and every shell state, the command-line
handler returns, calls `g_application_activate` exactly once, and the only
value it writes to the exit status is 0.  In the primary instance that one
dispatch runs the activation handler once (one window is constructed); a
remote instance constructs none in this process. -/
theorem local_command_line_success_dispatches_once (s : Shell) (binary : String)
    (rest : List String) (is_remote : Bool) :
    ∃ res,
      my_application_local_command_line my_application_class s (argv (binary :: rest))
        (RegisterResult.registered is_remote) = some res ∧
      (callsSince s res.shell).count Call.g_application_activate = 1 ∧
      res.exit_status_writes = [0] ∧
      (callsSince s res.shell).countP Call.isWindowNew = (if is_remote then 0 else 1) := by
  cases is_remote with
  | true =>
    refine ⟨_, local_command_line_remote my_application_class s binary rest, ?_, rfl, ?_⟩
    · rw [callsSince_append s _ _ rfl]
      decide
    · rw [callsSince_append s _ _ rfl]
      decide
  | false =>
    refine ⟨_, local_command_line_primary s binary rest, ?_, rfl, ?_⟩
    · rw [callsSince_append s _ _ rfl]
      simp [List.count_cons]
    · rw [callsSince_append s _ _ rfl]
      simp [List.countP_cons, Call.isWindowNew]

/-- C3: whenever registration fails with message `m`, for every raw argument
vector and every shell state, the command-line handler returns without
calling `g_application_activate`, makes none of the activation handler's
calls (no window, title bar, view, plugin registration or chrome hand-over),
emits exactly one warning, whose text contains `m`, and the only value it
writes to the exit status is 1. -/
theorem local_command_line_failure_halts (s : Shell) (binary : String)
    (rest : List String) (m : String) :
    ∃ res text,
      my_application_local_command_line my_application_class s (argv (binary :: rest))
        (RegisterResult.failed m) = some res ∧
      Call.g_application_activate ∉ callsSince s res.shell ∧
      (callsSince s res.shell).countP Call.isActivationWork = 0 ∧
      windowsCreated res.shell = windowsCreated s ∧
      (callsSince s res.shell).filter Call.isWarning = [Call.g_warning text] ∧
      containsText text m ∧
      res.exit_status_writes = [1] := by
  refine ⟨_, "Failed to register application: " ++ m,
    local_command_line_failed my_application_class s binary rest m, ?_, ?_, ?_, ?_, ?_, rfl⟩
  · rw [callsSince_append s _ _ rfl]
    simp
  · rw [callsSince_append s _ _ rfl]
    simp [List.countP_cons, Call.isActivationWork]
  · simp [windowsCreated, List.countP_cons, Call.isWindowNew]
  · rw [callsSince_append s _ _ rfl]
    simp [List.filter_cons, Call.isWarning]
  · unfold containsText
    rw [String.data_append]
    exact (List.suffix_append _ _).isInfix

/-- C10: for every raw argument vector `V` with at least one element, every
shell state and every registration outcome, the command-line handler returns
`TRUE`, writes the exit status exactly once, the value written being 0 or 1,
and the stored `dart_entrypoint_arguments` are `V` from index 1 onward. -/
theorem local_command_line_always_handled (s : Shell) (V : List String)
    (reg : RegisterResult) (hV : 1 ≤ V.length) :
    ∃ res,
      my_application_local_command_line my_application_class s (argv V) reg = some res ∧
      res.returned = true ∧
      (res.exit_status_writes = [0] ∨ res.exit_status_writes = [1]) ∧
      res.exit_status_writes.length = 1 ∧
      res.shell.dart_entrypoint_arguments = some (V.drop 1) := by
  obtain ⟨binary, rest, rfl⟩ : ∃ binary rest, V = binary :: rest := by
    cases V with
    | nil => simp at hV
    | cons b r => exact ⟨b, r, rfl⟩
  cases reg with
  | failed m =>
    exact ⟨_, local_command_line_failed my_application_class s binary rest m, rfl,
      Or.inr rfl, rfl, rfl⟩
  | registered is_remote =>
    cases is_remote with
    | true =>
      exact ⟨_, local_command_line_remote my_application_class s binary rest, rfl,
        Or.inl rfl, rfl, rfl⟩
    | false =>
      exact ⟨_, local_command_line_primary s binary rest, rfl, Or.inl rfl, rfl, rfl⟩

/-- Witness for C10: a failing registration on `["app_bin", "--flag"]`. -/
theorem local_command_line_always_handled_witness :
    1 ≤ ["app_bin", "--flag"].length ∧
    ∃ res,
      my_application_local_command_line my_application_class my_application_init
        (argv ["app_bin", "--flag"]) (RegisterResult.failed "already running") = some res ∧
      res.returned = true ∧
      (res.exit_status_writes = [0] ∨ res.exit_status_writes = [1]) ∧
      res.exit_status_writes.length = 1 ∧
      res.shell.dart_entrypoint_arguments = some (["app_bin", "--flag"].drop 1) :=
  ⟨by decide,
    local_command_line_always_handled my_application_init ["app_bin", "--flag"]
      (RegisterResult.failed "already running") (by decide)⟩

/-- C4: for every raw argument vector `V` with at least one element, once the
command-line handler has run on `V`, a run of the activation handler
constructs exactly one view and the argument vector that view is constructed
with is `V` from index 1 onward, unchanged.  The activation dispatched by the
command-line handler itself (registration succeeded as primary instance)
forwards the same vector; on the other outcomes no view is constructed inside
the command-line handler. -/
theorem activation_forwards_arguments_verbatim (s : Shell) (V : List String)
    (reg : RegisterResult) (hV : 1 ≤ V.length) :
    ∃ res,
      my_application_local_command_line my_application_class s (argv V) reg = some res ∧
      viewArguments (callsSince res.shell (my_application_activate res.shell)) =
        [some (V.drop 1)] ∧
      viewArguments (callsSince s res.shell) =
        (if reg = RegisterResult.registered false then [some (V.drop 1)] else []) := by
  obtain ⟨binary, rest, rfl⟩ : ∃ binary rest, V = binary :: rest := by
    cases V with
    | nil => simp at hV
    | cons b r => exact ⟨b, r, rfl⟩
  cases reg with
  | failed m =>
    refine ⟨_, local_command_line_failed my_application_class s binary rest m, ?_, ?_⟩
    · rw [activate_calls]
      simp [viewArguments, viewArgumentsFrom]
    · rw [callsSince_append s _ _ rfl]
      simp [viewArguments, viewArgumentsFrom]
  | registered is_remote =>
    cases is_remote with
    | true =>
      refine ⟨_, local_command_line_remote my_application_class s binary rest, ?_, ?_⟩
      · rw [activate_calls]
        simp [viewArguments, viewArgumentsFrom]
      · rw [callsSince_append s _ _ rfl]
        simp [viewArguments, viewArgumentsFrom]
    | false =>
      refine ⟨_, local_command_line_primary s binary rest, ?_, ?_⟩
      · rw [activate_calls]
        simp [viewArguments, viewArgumentsFrom]
      · rw [callsSince_append s _ _ rfl]
        simp [viewArguments, viewArgumentsFrom]

/-- Witness for C4 (scenario B): `["app_bin", "--flag", "value"]` is forwarded
as `["--flag", "value"]`. -/
theorem activation_forwards_arguments_verbatim_witness :
    1 ≤ ["app_bin", "--flag", "value"].length ∧
    ∃ res,
      my_application_local_command_line my_application_class my_application_init
        (argv ["app_bin", "--flag", "value"]) (RegisterResult.registered false) = some res ∧
      viewArguments (callsSince res.shell (my_application_activate res.shell)) =
        [some (["app_bin", "--flag", "value"].drop 1)] ∧
      viewArguments (callsSince my_application_init res.shell) =
        (if RegisterResult.registered false = RegisterResult.registered false
          then [some (["app_bin", "--flag", "value"].drop 1)] else []) :=
  ⟨by decide,
    activation_forwards_arguments_verbatim my_application_init
      ["app_bin", "--flag", "value"] (RegisterResult.registered false) (by decide)⟩

/-- C5: in one run of the activation handler exactly one window and one view
are constructed, plugin registration is called exactly once, on that view,
strictly after the view's construction and after its attachment to the
window, and strictly before the window is shown. -/
theorem activate_registers_plugins_once_in_order (s : Shell) :
    ∃ window project view,
      (callsSince s (my_application_activate s)).filter Call.isWindowNew =
        [Call.gtk_application_window_new window] ∧
      (callsSince s (my_application_activate s)).filter Call.isViewNew =
        [Call.fl_view_new project view] ∧
      (callsSince s (my_application_activate s)).filter Call.isRegisterPlugins =
        [Call.fl_register_plugins view] ∧
      StrictlyBefore (Call.fl_view_new project view) (Call.fl_register_plugins view)
        (callsSince s (my_application_activate s)) ∧
      StrictlyBefore (Call.gtk_container_add window view) (Call.fl_register_plugins view)
        (callsSince s (my_application_activate s)) ∧
      StrictlyBefore (Call.fl_register_plugins view) (Call.gtk_widget_show window)
        (callsSince s (my_application_activate s)) := by
  refine ⟨s.nextHandle, s.nextHandle + 2, s.nextHandle + 3, ?_, ?_, ?_, ?_, ?_, ?_⟩
  · rw [activate_calls]
    simp [List.filter_cons, Call.isWindowNew]
  · rw [activate_calls]
    simp [List.filter_cons, Call.isViewNew]
  · rw [activate_calls]
    simp [List.filter_cons, Call.isRegisterPlugins]
  · rw [activate_calls]
    refine strictlyBefore_of_split _ _ _
      [ Call.gtk_application_window_new s.nextHandle,
        Call.gtk_header_bar_new (s.nextHandle + 1),
        Call.gtk_window_set_titlebar s.nextHandle (s.nextHandle + 1),
        Call.fl_dart_project_new (s.nextHandle + 2),
        Call.fl_dart_project_set_dart_entrypoint_arguments (s.nextHandle + 2)
          s.dart_entrypoint_arguments,
        Call.fl_view_new (s.nextHandle + 2) (s.nextHandle + 3),
        Call.gtk_widget_show (s.nextHandle + 3),
        Call.gtk_container_add s.nextHandle (s.nextHandle + 3) ]
      [ Call.fl_register_plugins (s.nextHandle + 3),
        Call.gtk_widget_grab_focus (s.nextHandle + 3),
        Call.bitsdojo_window_plugin_set_window s.nextHandle,
        Call.gtk_widget_show s.nextHandle ] rfl ?_ ?_ ?_ ?_ <;> simp
  · rw [activate_calls]
    refine strictlyBefore_of_split _ _ _
      [ Call.gtk_application_window_new s.nextHandle,
        Call.gtk_header_bar_new (s.nextHandle + 1),
        Call.gtk_window_set_titlebar s.nextHandle (s.nextHandle + 1),
        Call.fl_dart_project_new (s.nextHandle + 2),
        Call.fl_dart_project_set_dart_entrypoint_arguments (s.nextHandle + 2)
          s.dart_entrypoint_arguments,
        Call.fl_view_new (s.nextHandle + 2) (s.nextHandle + 3),
        Call.gtk_widget_show (s.nextHandle + 3),
        Call.gtk_container_add s.nextHandle (s.nextHandle + 3) ]
      [ Call.fl_register_plugins (s.nextHandle + 3),
        Call.gtk_widget_grab_focus (s.nextHandle + 3),
        Call.bitsdojo_window_plugin_set_window s.nextHandle,
        Call.gtk_widget_show s.nextHandle ] rfl ?_ ?_ ?_ ?_ <;> simp
  · rw [activate_calls]
    refine strictlyBefore_of_split _ _ _
      [ Call.gtk_application_window_new s.nextHandle,
        Call.gtk_header_bar_new (s.nextHandle + 1),
        Call.gtk_window_set_titlebar s.nextHandle (s.nextHandle + 1),
        Call.fl_dart_project_new (s.nextHandle + 2),
        Call.fl_dart_project_set_dart_entrypoint_arguments (s.nextHandle + 2)
          s.dart_entrypoint_arguments,
        Call.fl_view_new (s.nextHandle + 2) (s.nextHandle + 3),
        Call.gtk_widget_show (s.nextHandle + 3),
        Call.gtk_container_add s.nextHandle (s.nextHandle + 3),
        Call.fl_register_plugins (s.nextHandle + 3) ]
      [ Call.gtk_widget_grab_focus (s.nextHandle + 3),
        Call.bitsdojo_window_plugin_set_window s.nextHandle,
        Call.gtk_widget_show s.nextHandle ] rfl ?_ ?_ ?_ ?_ <;> simp

/-- C6: in one run of the activation handler exactly one window is
constructed, the chrome delegate is handed a window exactly once, namely that
window, strictly after the window's title bar has been replaced (the only
title-bar installation of the run, made on that window) and strictly after the
view's widget has been attached to the window. -/
theorem activate_hands_window_to_chrome_delegate_once_in_order (s : Shell) :
    ∃ window titlebar project view,
      (callsSince s (my_application_activate s)).filter Call.isWindowNew =
        [Call.gtk_application_window_new window] ∧
      (callsSince s (my_application_activate s)).filter Call.isViewNew =
        [Call.fl_view_new project view] ∧
      (callsSince s (my_application_activate s)).filter Call.isSetTitlebar =
        [Call.gtk_window_set_titlebar window titlebar] ∧
      (callsSince s (my_application_activate s)).filter Call.isSetWindow =
        [Call.bitsdojo_window_plugin_set_window window] ∧
      StrictlyBefore (Call.gtk_window_set_titlebar window titlebar)
        (Call.bitsdojo_window_plugin_set_window window)
        (callsSince s (my_application_activate s)) ∧
      StrictlyBefore (Call.gtk_container_add window view)
        (Call.bitsdojo_window_plugin_set_window window)
        (callsSince s (my_application_activate s)) := by
  refine ⟨s.nextHandle, s.nextHandle + 1, s.nextHandle + 2, s.nextHandle + 3,
    ?_, ?_, ?_, ?_, ?_, ?_⟩
  · rw [activate_calls]
    simp [List.filter_cons, Call.isWindowNew]
  · rw [activate_calls]
    simp [List.filter_cons, Call.isViewNew]
  · rw [activate_calls]
    simp [List.filter_cons, Call.isSetTitlebar]
  · rw [activate_calls]
    simp [List.filter_cons, Call.isSetWindow]
  · rw [activate_calls]
    refine strictlyBefore_of_split _ _ _
      [ Call.gtk_application_window_new s.nextHandle,
        Call.gtk_header_bar_new (s.nextHandle + 1),
        Call.gtk_window_set_titlebar s.nextHandle (s.nextHandle + 1),
        Call.fl_dart_project_new (s.nextHandle + 2),
        Call.fl_dart_project_set_dart_entrypoint_arguments (s.nextHandle + 2)
          s.dart_entrypoint_arguments,
        Call.fl_view_new (s.nextHandle + 2) (s.nextHandle + 3),
        Call.gtk_widget_show (s.nextHandle + 3),
        Call.gtk_container_add s.nextHandle (s.nextHandle + 3) ]
      [ Call.fl_register_plugins (s.nextHandle + 3),
        Call.gtk_widget_grab_focus (s.nextHandle + 3),
        Call.bitsdojo_window_plugin_set_window s.nextHandle,
        Call.gtk_widget_show s.nextHandle ] rfl ?_ ?_ ?_ ?_ <;> simp
  · rw [activate_calls]
    refine strictlyBefore_of_split _ _ _
      [ Call.gtk_application_window_new s.nextHandle,
        Call.gtk_header_bar_new (s.nextHandle + 1),
        Call.gtk_window_set_titlebar s.nextHandle (s.nextHandle + 1),
        Call.fl_dart_project_new (s.nextHandle + 2),
        Call.fl_dart_project_set_dart_entrypoint_arguments (s.nextHandle + 2)
          s.dart_entrypoint_arguments,
        Call.fl_view_new (s.nextHandle + 2) (s.nextHandle + 3),
        Call.gtk_widget_show (s.nextHandle + 3),
        Call.gtk_container_add s.nextHandle (s.nextHandle + 3) ]
      [ Call.fl_register_plugins (s.nextHandle + 3),
        Call.gtk_widget_grab_focus (s.nextHandle + 3),
        Call.bitsdojo_window_plugin_set_window s.nextHandle,
        Call.gtk_widget_show s.nextHandle ] rfl ?_ ?_ ?_ ?_ <;> simp

/-- C7, as stated, fails: on a freshly initialised shell the calls of the
activation handler are not the specification's sequence, whatever objects and
arguments are put in it; the chrome delegate is not called before focus is
set. -/
theorem activation_order_differs_from_spec :
    (¬ ∃ window titlebar project view entrypointArguments,
        callsSince my_application_init (my_application_activate my_application_init) =
          spec_activation_sequence window titlebar project view entrypointArguments) ∧
    ¬ StrictlyBefore (Call.bitsdojo_window_plugin_set_window 0) (Call.gtk_widget_grab_focus 3)
        (callsSince my_application_init (my_application_activate my_application_init)) := by
  constructor
  · rintro ⟨window, titlebar, project, view, entrypointArguments, h⟩
    rw [activate_calls] at h
    simp [spec_activation_sequence] at h
  · decide

/-- C7, amended: the calls of one run of the activation handler are, in this
order: construct the window; construct a header bar and install it as the
window's title bar; construct the project, store the entry point arguments in
it and construct the view from it; show the view; attach the view to the
window; register plugins on the view; set keyboard focus to the view; hand
the window to the chrome delegate; show the window.  Focus is set before the
chrome delegate is called, and showing the window is the last call. -/
theorem activate_call_sequence (s : Shell) :
    ∃ window titlebar project view,
      callsSince s (my_application_activate s) =
        [ Call.gtk_application_window_new window,
          Call.gtk_header_bar_new titlebar,
          Call.gtk_window_set_titlebar window titlebar,
          Call.fl_dart_project_new project,
          Call.fl_dart_project_set_dart_entrypoint_arguments project
            s.dart_entrypoint_arguments,
          Call.fl_view_new project view,
          Call.gtk_widget_show view,
          Call.gtk_container_add window view,
          Call.fl_register_plugins view,
          Call.gtk_widget_grab_focus view,
          Call.bitsdojo_window_plugin_set_window window,
          Call.gtk_widget_show window ] ∧
      window ≠ view ∧
      StrictlyBefore (Call.gtk_widget_grab_focus view)
        (Call.bitsdojo_window_plugin_set_window window)
        (callsSince s (my_application_activate s)) ∧
      (callsSince s (my_application_activate s)).getLast? =
        some (Call.gtk_widget_show window) := by
  refine ⟨s.nextHandle, s.nextHandle + 1, s.nextHandle + 2, s.nextHandle + 3,
    activate_calls s, Nat.ne_of_lt (Nat.lt_add_of_pos_right (by decide)), ?_, ?_⟩
  · rw [activate_calls]
    refine strictlyBefore_of_split _ _ _
      [ Call.gtk_application_window_new s.nextHandle,
        Call.gtk_header_bar_new (s.nextHandle + 1),
        Call.gtk_window_set_titlebar s.nextHandle (s.nextHandle + 1),
        Call.fl_dart_project_new (s.nextHandle + 2),
        Call.fl_dart_project_set_dart_entrypoint_arguments (s.nextHandle + 2)
          s.dart_entrypoint_arguments,
        Call.fl_view_new (s.nextHandle + 2) (s.nextHandle + 3),
        Call.gtk_widget_show (s.nextHandle + 3),
        Call.gtk_container_add s.nextHandle (s.nextHandle + 3),
        Call.fl_register_plugins (s.nextHandle + 3),
        Call.gtk_widget_grab_focus (s.nextHandle + 3) ]
      [ Call.bitsdojo_window_plugin_set_window s.nextHandle,
        Call.gtk_widget_show s.nextHandle ] rfl ?_ ?_ ?_ ?_ <;> simp
  · rw [activate_calls]
    simp

theorem deliver_windows (s : Shell) (e : Event) :
    ∃ s1, deliver my_application_class s e = some s1 ∧
      windowsCreated s1 = windowsCreated s + activationRuns [e] := by
  have hk : my_application_class.local_command_line = Impl.my_application := rfl
  cases e with
  | startup =>
    refine ⟨_, rfl, ?_⟩
    simp [emit_startup, my_application_class, my_application_class_init,
      my_application_startup, Shell.call, windowsCreated, Call.isWindowNew, activationRuns]
  | activate =>
    refine ⟨_, rfl, ?_⟩
    simp [emit_activate, my_application_class, my_application_class_init, activate_state,
      windowsCreated, List.countP_cons, Call.isWindowNew, activationRuns]
  | command_line binary rest reg =>
    cases reg with
    | failed m =>
      refine ⟨_, by simp only [deliver, hk, local_command_line_failed]; rfl, ?_⟩
      simp [windowsCreated, List.countP_cons, Call.isWindowNew, activationRuns]
    | registered is_remote =>
      cases is_remote with
      | true =>
        refine ⟨_, by simp only [deliver, hk, local_command_line_remote]; rfl, ?_⟩
        simp [windowsCreated, List.countP_cons, Call.isWindowNew, activationRuns]
      | false =>
        refine ⟨_, by simp only [deliver, hk, local_command_line_primary]; rfl, ?_⟩
        simp [windowsCreated, List.countP_cons, Call.isWindowNew, activationRuns]

theorem activationRuns_cons (e : Event) (es : List Event) :
    activationRuns (e :: es) = activationRuns [e] + activationRuns es := by
  cases e with
  | startup => simp [activationRuns]
  | activate => simp [activationRuns, Nat.add_comm]
  | command_line binary rest reg =>
    cases reg with
    | failed m => simp [activationRuns]
    | registered is_remote =>
      cases is_remote <;> simp [activationRuns, Nat.add_comm]

/-- C8, as stated, fails: a command-line receipt whose registration succeeds
in the primary instance, followed by one more activation request, leaves two
windows constructed on the one shell. -/
theorem second_activation_creates_second_window :
    (run my_application_class my_application_init
        [ Event.command_line "app_bin" [] (RegisterResult.registered false),
          Event.activate ]).map windowsCreated = some 2 := by
  decide

/-- C8, amended: every run of the activation handler constructs exactly one
window, so every sequence of lifecycle events is handled to completion and the
number of windows constructed while handling it equals the number of runs of
the activation handler in it (activation requests, plus command-line receipts
registered as primary instance). -/
theorem windows_created_equals_activation_runs (s : Shell) (events : List Event) :
    ∃ s1, run my_application_class s events = some s1 ∧
      windowsCreated s1 = windowsCreated s + activationRuns events := by
  induction events generalizing s with
  | nil => exact ⟨s, rfl, rfl⟩
  | cons e es ih =>
    obtain ⟨s1, h1, hw1⟩ := deliver_windows s e
    obtain ⟨s2, h2, hw2⟩ := ih s1
    refine ⟨s2, ?_, ?_⟩
    · simp only [run, h1, h2]
    · rw [hw2, hw1, activationRuns_cons e es, Nat.add_assoc]

/-- C9, as stated, fails: after a command-line receipt on `["app_bin"]` has
activated the shell and a view exists, a further command-line receipt on
`["app_bin", "--other"]` replaces the stored entry point arguments. -/
theorem later_command_line_overwrites_arguments :
    ∃ s1 s2,
      run my_application_class my_application_init
        [ Event.command_line "app_bin" [] (RegisterResult.registered false) ] = some s1 ∧
      (callsSince my_application_init s1).countP Call.isViewNew = 1 ∧
      deliver my_application_class s1
        (Event.command_line "app_bin" ["--other"] (RegisterResult.registered false)) =
        some s2 ∧
      s1.dart_entrypoint_arguments = some [] ∧
      s2.dart_entrypoint_arguments = some ["--other"] ∧
      s2.dart_entrypoint_arguments ≠ s1.dart_entrypoint_arguments := by
  refine ⟨_, _, rfl, ?_, rfl, ?_, ?_, ?_⟩ <;> decide

/-- C9, amended: in every shell state (in particular once a view has been
constructed) the activation handler and the startup handler leave the stored
entry point arguments as they were; a command-line receipt on the raw vector
`binary :: rest` stores `rest`, whatever was stored before. -/
theorem arguments_kept_by_activate_and_startup (s : Shell) :
    (my_application_activate s).dart_entrypoint_arguments = s.dart_entrypoint_arguments ∧
    (my_application_startup s).dart_entrypoint_arguments = s.dart_entrypoint_arguments ∧
    (deliver my_application_class s Event.activate).map Shell.dart_entrypoint_arguments =
      some s.dart_entrypoint_arguments ∧
    (deliver my_application_class s Event.startup).map Shell.dart_entrypoint_arguments =
      some s.dart_entrypoint_arguments ∧
    ∀ binary rest reg,
      (deliver my_application_class s (Event.command_line binary rest reg)).map
        Shell.dart_entrypoint_arguments = some (some rest) := by
  have hk : my_application_class.local_command_line = Impl.my_application := rfl
  refine ⟨by rw [activate_state], rfl, ?_, rfl, ?_⟩
  · simp [deliver, emit_activate, my_application_class, my_application_class_init,
      activate_state]
  · intro binary rest reg
    cases reg with
    | failed m => simp only [deliver, hk, local_command_line_failed]; rfl
    | registered is_remote =>
      cases is_remote with
      | true => simp only [deliver, hk, local_command_line_remote]; rfl
      | false => simp only [deliver, hk, local_command_line_primary]; rfl

end MyApplication
